import Mathlib

/-!
Shallow embedding of the hook-javascript client SDK.

Source files embedded here:
* `src/client.js` — the request pipeline: `request`, `getHeaders`, `getPayload`.
* `src/auth.js` (unnamed part_000) — the `Auth` session manager: constructor,
  `setCurrentUser`, `isLogged`, `getToken`, `_registerToken`, `resetPassword`,
  `update`, `logout`.

JavaScript values are modelled by the inductive `JSValue`; machine floats do not
occur in the claims (all arithmetic is on integer epoch-millisecond timestamps),
so numbers are modelled as `Int`.  `localStorage` and header dictionaries are
modelled as insertion-ordered association lists of strings (`StrMap`).
-/

namespace Hook

/-- One entry appended to a `FormData` object: either a plain string field
(two-argument `formdata.append(field, value)`) or a binary field carrying a
filename (three-argument `formdata.append(field, value, filename)`). The binary
bytes themselves are irrelevant to the claims and are not modelled. -/
inductive FormEntry where
  | strField (name val : String)
  | fileField (name filename : String)
deriving DecidableEq

/-- Model of the JavaScript values that flow through the pipeline.
`date ms` is a `Date` whose `getTime()` is `ms`; `input files val` is an
`HTMLInputElement` with `files` (the list of selected file names) and `value`;
`canvas` is an `HTMLCanvasElement`; `blob mime` is a `Blob` with `type = mime`;
`formData` is a pre-built `FormData`.  `NaN` numbers are not modelled (no claim
exercises them). -/
inductive JSValue where
  | null
  | undefined
  | bool (b : Bool)
  | num (n : Int)
  | str (s : String)
  | date (ms : Int)
  | input (files : List String) (val : String)
  | canvas
  | blob (mime : String)
  | formData (entries : List FormEntry)
  | arr (xs : List JSValue)
  | obj (fields : List (String × JSValue))

/-- JavaScript truthiness of a value (`if (x)`). -/
def truthy : JSValue → Bool
  | .null => false
  | .undefined => false
  | .bool b => b
  | .num n => n != 0
  | .str s => s != ""
  | _ => true

/-- JS `typeof v === "string"`. -/
def isString : JSValue → Bool
  | .str _ => true
  | _ => false

/-- Look up a field in an object's field list (JS property access). -/
def lookupField (fields : List (String × JSValue)) (k : String) : Option JSValue :=
  match fields with
  | [] => none
  | p :: rest => if p.1 == k then some p.2 else lookupField rest k

/-- JS property access `v[k]`: a missing property reads as `undefined`; property
access on non-objects other than the modelled ones also reads as `undefined`
(no claim accesses built-in properties of primitives). -/
def getField (v : JSValue) (k : String) : JSValue :=
  match v with
  | .obj fields =>
    match lookupField fields k with
    | some w => w
    | none => .undefined
  | _ => .undefined

/-- JS `delete v[k]` on an object: drop the field. On non-objects it is a no-op. -/
def deleteField (v : JSValue) (k : String) : JSValue :=
  match v with
  | .obj fields => .obj (fields.filter (fun p => p.1 != k))
  | w => w

/-- `Math.round(ms / 1000)` for an integer millisecond count `ms`: JS `Math.round`
rounds half toward positive infinity, i.e. `floor(x + 1/2)`, which on
`ms / 1000` equals floor division of `ms + 500` by `1000`. -/
def jsRound (ms : Int) : Int := Int.fdiv (ms + 500) 1000

/-- Lowercase hexadecimal digit (for JSON \u escapes). -/
def hexDigitLower (n : Nat) : Char :=
  if n < 10 then Char.ofNat (48 + n) else Char.ofNat (87 + n)

/-- Uppercase hexadecimal digit (for percent-encoding). -/
def hexDigitUpper (n : Nat) : Char :=
  if n < 10 then Char.ofNat (48 + n) else Char.ofNat (55 + n)

/-- JSON string escaping of one character, as `JSON.stringify` performs it. -/
def jsonEscapeChar (c : Char) : String :=
  if c == '"' then "\\\""
  else if c == '\\' then "\\\\"
  else if c == '\n' then "\\n"
  else if c == '\r' then "\\r"
  else if c == '\t' then "\\t"
  else if c == '\x08' then "\\b"
  else if c == '\x0c' then "\\f"
  else if c.toNat < 32 then
    "\\u00" ++ String.singleton (hexDigitLower (c.toNat / 16))
            ++ String.singleton (hexDigitLower (c.toNat % 16))
  else String.singleton c

/-- JSON quoting of a string. -/
def jsonQuote (s : String) : String :=
  "\"" ++ String.join (s.data.map jsonEscapeChar) ++ "\""

mutual

/-- `JSON.stringify(data, replacer)` with the date replacer of
`client.js` lines 310-316: a `Date`-valued member is replaced by
`Math.round(getTime() / 1000)` (the replacer inspects `this[key]`, the holder's
raw value, so it sees the `Date` before `toJSON` turns it into an ISO string).
`undefined` serializes to no output (`none`); DOM objects (`input`, `canvas`,
`blob`, `formData`) have no enumerable own properties and serialize to the
empty-object literal. -/
def stringifyVal : JSValue → Option String
  | .null => some "null"
  | .undefined => none
  | .bool b => some (if b then "true" else "false")
  | .num n => some (toString n)
  | .str s => some (jsonQuote s)
  | .date ms => some (toString (jsRound ms))
  | .input _ _ => some "\x7b\x7d"
  | .canvas => some "\x7b\x7d"
  | .blob _ => some "\x7b\x7d"
  | .formData _ => some "\x7b\x7d"
  | .arr xs => some ("[" ++ stringifyArr xs ++ "]")
  | .obj fields => some ("\x7b" ++ String.intercalate "," (fieldEntries fields) ++ "\x7d")

/-- Array members: an `undefined` member serializes as `null` inside an array. -/
def stringifyArr : List JSValue → String
  | [] => ""
  | [v] => (stringifyVal v).getD "null"
  | v :: rest => (stringifyVal v).getD "null" ++ "," ++ stringifyArr rest

/-- Serialized `"key":value` entries of an object; members whose value
serializes to `undefined` are omitted. -/
def fieldEntries : List (String × JSValue) → List String
  | [] => []
  | (k, v) :: rest =>
    match stringifyVal v with
    | none => fieldEntries rest
    | some sv => (jsonQuote k ++ ":" ++ sv) :: fieldEntries rest

end

mutual

/-- JS `ToString` coercion, as applied by `value.toString()` and by
`localStorage.setItem` on its value argument. A `Date` stringifies to a
locale-dependent host string; no claim coerces a `Date`, an element or a
`FormData`, so those carry fixed tags. -/
def jsToString : JSValue → String
  | .null => "null"
  | .undefined => "undefined"
  | .bool b => if b then "true" else "false"
  | .num n => toString n
  | .str s => s
  | .date _ => "[host Date toString]"
  | .input _ _ => "[object HTMLInputElement]"
  | .canvas => "[object HTMLCanvasElement]"
  | .blob _ => "[object Blob]"
  | .formData _ => "[object FormData]"
  | .arr xs => jsToStringElems xs
  | .obj _ => "[object Object]"

/-- JS `Array.prototype.toString`: members joined by commas, `null` and
`undefined` members contributing the empty string. -/
def jsToStringElems : List JSValue → String
  | [] => ""
  | [v] => jsToStringElem v
  | v :: rest => jsToStringElem v ++ "," ++ jsToStringElems rest

/-- One array member under `Array.prototype.join`. -/
def jsToStringElem : JSValue → String
  | .null => ""
  | .undefined => ""
  | v => jsToString v

end

/-- Insertion-ordered string dictionary: models both `localStorage` and the
request-header object. -/
abbrev StrMap := List (String × String)

/-- `localStorage.getItem` / header lookup: `none` models JS `null`. -/
def StrMap.getItem : StrMap → String → Option String
  | [], _ => none
  | p :: rest, k => if p.1 == k then some p.2 else StrMap.getItem rest k

/-- `localStorage.setItem` / header assignment: overwrite the existing entry in
place, else append (JS object/property insertion order). -/
def StrMap.setItem : StrMap → String → String → StrMap
  | [], k, v => [(k, v)]
  | p :: rest, k, v => if p.1 == k then (k, v) :: rest else p :: StrMap.setItem rest k v

/-- `localStorage.removeItem`. -/
def StrMap.removeItem : StrMap → String → StrMap
  | [], _ => []
  | p :: rest, k => if p.1 == k then StrMap.removeItem rest k else p :: StrMap.removeItem rest k

/-- The synchronous errors the embedded code can throw. -/
inductive JSError where
  | canvasToBlobMissing
  | blobTypeNoSubtype
  | forgotPasswordTokenRequired
  | newPasswordRequired
  | notLoggedIn
deriving DecidableEq

/-- Host environment facts the pipeline consults: whether the optional
`dataURLtoBlob` canvas-conversion dependency is loaded.  `Blob` and `FormData`
are taken as defined (browser environment), and `formdata.append` is the
browser primitive: the three-argument form succeeds on `Blob` values and throws
a swallowed `TypeError` on anything else. -/
structure Env where
  dataURLtoBlob : Bool

/-- The extension extracted from a blob's mime type by
`value.type.match(/\x2f(.*)/)[1]`: everything after the first slash.  When the
mime type has no slash the regexp match is `null` and indexing it throws a
`TypeError`. -/
def mimeSubtype (mime : String) : Option String :=
  match mime.splitOn "/" with
  | [] => none
  | [_] => none
  | _ :: rest => some (String.intercalate "/" rest)

/-- One iteration of the `for (field in data)` loop of `getPayload`
(`client.js` lines 256-303): the entry appended to the form-data (if any) and
whether this field marked the payload as file-bearing (`worth`).
Per the source, in order:
* `undefined`/`null` values are skipped;
* booleans/numbers/strings are coerced with `toString` and appended as strings;
* a file input with a selected file contributes that file with its name
  (`filename || "file"` guards an empty name) and sets `worth`;
* any other input element contributes its `.value` string;
* a canvas is converted via `dataURLtoBlob` (throwing if the dependency is
  absent), contributing `canvas.png` and setting `worth`;
* a blob contributes `blob.<subtype>` and sets `worth`;
* array values are never appended (the source's `fixme`);
* remaining values (dates, plain objects, nested form-data) reach the
  three-argument `append`, which throws on non-Blob values; the throw is
  swallowed and the field dropped. -/
def appendField (env : Env) (k : String) (v : JSValue) : Except JSError (Option FormEntry × Bool) :=
  match v with
  | .undefined => .ok (none, false)
  | .null => .ok (none, false)
  | .bool b => .ok (some (.strField k (jsToString (.bool b))), false)
  | .num n => .ok (some (.strField k (jsToString (.num n))), false)
  | .str s => .ok (some (.strField k s), false)
  | .input files val =>
    match files with
    | f :: _ => .ok (some (.fileField k (if f == "" then "file" else f)), true)
    | [] => .ok (some (.strField k val), false)
  | .canvas =>
    if env.dataURLtoBlob then .ok (some (.fileField k "canvas.png"), true)
    else .error .canvasToBlobMissing
  | .blob mime =>
    match mimeSubtype mime with
    | some ext => .ok (some (.fileField k ("blob." ++ ext)), true)
    | none => .error .blobTypeNoSubtype
  | .arr _ => .ok (none, false)
  | _ => .ok (none, false)

/-- The whole `for (field in data)` loop: collected form entries and the final
`worth` flag. -/
def processFields (env : Env) : List (String × JSValue) → Except JSError (List FormEntry × Bool)
  | [] => .ok ([], false)
  | (k, v) :: rest => do
    let (e, w) ← appendField env k v
    let (es, ws) ← processFields env rest
    .ok ((match e with | some x => x :: es | none => es), w || ws)

/-- Enumerable own fields of a value, as `for (field in v)` sees them.  Only
objects contribute fields here; iterating a primitive string would enumerate
its indices, but every such character field is appended as a string and leaves
`worth` false, so the resulting payload is the same as with no fields. -/
def fieldsOf : JSValue → List (String × JSValue)
  | .obj fields => fields
  | _ => []

/-- Is this character left unescaped by JS `encodeURIComponent`?
(ASCII letters and digits and `- _ . ! ~ * ' ( )`; code 39 is the apostrophe.) -/
def isUriUnreserved (c : Char) : Bool :=
  c.isAlphanum || c == '-' || c == '_' || c == '.' || c == '!' || c == '~' ||
    c == '*' || c == '(' || c == ')' || c.toNat == 39

/-- Percent-encoding of one byte, uppercase hex as JS produces it. -/
def percentEncodeByte (b : UInt8) : String :=
  "%" ++ String.singleton (hexDigitUpper (b.toNat / 16))
      ++ String.singleton (hexDigitUpper (b.toNat % 16))

/-- JS `encodeURIComponent`: unreserved characters pass through, every other
character is percent-encoded byte-by-byte in UTF-8. -/
def encodeURIComponent (s : String) : String :=
  String.join (s.data.map (fun c =>
    if isUriUnreserved c then String.singleton c
    else String.join (((String.singleton c).toUTF8.toList).map percentEncodeByte)))

/-- The request payload returned by `getPayload`: a `FormData` or a string
(`none` at the call sites models a JS `null` payload). -/
inductive Payload where
  | form (entries : List FormEntry)
  | str (s : String)
deriving DecidableEq

/-- `Client#getPayload(method, data)` (`client.js` lines 245-326).
Falsy `data` yields `null`.  A pre-built `FormData` passes through unchanged.
For non-GET methods the field loop runs; if any field was file-bearing the
form-data is the payload.  Otherwise the data is JSON-stringified with the
date replacer; the literal empty-object string normalizes to `null`; a GET
string payload is percent-encoded.  (The `JSON.stringify` fallback can only
yield `undefined` for function/symbol data, which the model excludes, so the
`none` branch below is unreachable for truthy data.) -/
def getPayload (env : Env) (method : String) (data : JSValue) : Except JSError (Option Payload) :=
  if truthy data = false then .ok none
  else match data with
  | .formData entries => .ok (some (.form entries))
  | _ => do
    let worthForm ←
      if method != "GET" then do
        let (entries, worth) ← processFields env (fieldsOf data)
        pure (if worth then some entries else none)
      else pure (none : Option (List FormEntry))
    match worthForm with
    | some entries => .ok (some (.form entries))
    | none =>
      match stringifyVal data with
      | none => .ok none
      | some s =>
        if s == "\x7b\x7d" then .ok none
        else if method == "GET" then .ok (some (.str (encodeURIComponent s)))
        else .ok (some (.str s))

/-- The client state the request pipeline reads: the normalized endpoint, the
app credentials, `options.method_override` (as a truthiness-resolved flag) and
what `this.auth.getToken()` currently returns (`localStorage` string or
`null`). -/
structure Client where
  endpoint : String
  app_id : String
  key : String
  method_override : Bool
  authToken : Option String

/-- `Client#getHeaders` (`client.js` lines 223-236): app credential headers,
plus `X-Auth-Token` when the token is truthy (a present-but-empty token string
is falsy and adds no header). -/
def getHeaders (c : Client) : StrMap :=
  let base : StrMap := [("X-App-Id", c.app_id), ("X-App-Key", c.key)]
  match c.authToken with
  | some t => if t != "" then base ++ [("X-Auth-Token", t)] else base
  | none => base

/-- The outgoing request handed to `fetch`: method, headers, url, and the body
(`none` for GET, whose payload travels in the url, and for a `null` payload). -/
structure RequestEnvelope where
  method : String
  headers : StrMap
  url : String
  body : Option Payload

/-- JS string coercion of the payload as concatenated into a GET url:
`url + "?" + payload` stringifies `null` to `"null"` and a `FormData` to its
object tag. -/
def payloadToJSString : Option Payload → String
  | none => "null"
  | some (.str s) => s
  | some (.form _) => "[object FormData]"

/-- `Client#request(segments, method, data)` (`client.js` lines 188-216).
Headers always receive `Content-Type: text/json`; if the verb is neither GET
nor POST and `options.method_override` is set, the `X-HTTP-Method-Override`
header records the original verb and the outgoing verb becomes POST; the
payload is computed with the (possibly rewritten) verb; for GET the payload is
concatenated after `?` into the url, otherwise it becomes the body. -/
def request (env : Env) (c : Client) (segments method0 : String) (data : JSValue) :
    Except JSError RequestEnvelope :=
  let hs0 := StrMap.setItem (getHeaders c) "Content-Type" "text/json"
  let override := method0 != "GET" && method0 != "POST" && c.method_override
  let hs := if override then StrMap.setItem hs0 "X-HTTP-Method-Override" method0 else hs0
  let method := if override then "POST" else method0
  if method == "GET" then
    match getPayload env method data with
    | .error e => .error e
    | .ok p => .ok ⟨method, hs, c.endpoint ++ segments ++ "?" ++ payloadToJSString p, none⟩
  else
    match getPayload env method data with
    | .error e => .error e
    | .ok p => .ok ⟨method, hs, c.endpoint ++ segments, p⟩

/-- `Auth.AUTH_DATA_KEY`. -/
def AUTH_DATA_KEY : String := "hook-auth-data"

/-- `Auth.AUTH_TOKEN_KEY`. -/
def AUTH_TOKEN_KEY : String := "hook-auth-token"

/-- `Auth.AUTH_TOKEN_EXPIRATION`. -/
def AUTH_TOKEN_EXPIRATION : String := "hook-auth-token-expiration"

/-- The namespaced `localStorage` key holding the serialized user document. -/
def dataKey (app_id : String) : String := app_id ++ "-" ++ AUTH_DATA_KEY

/-- The namespaced `localStorage` key holding the bearer token. -/
def tokenKey (app_id : String) : String := app_id ++ "-" ++ AUTH_TOKEN_KEY

/-- The namespaced `localStorage` key holding the token expiration. -/
def expirationKey (app_id : String) : String := app_id ++ "-" ++ AUTH_TOKEN_EXPIRATION

/-- The in-memory `Auth` state together with the `localStorage` it reads and
writes.  `currentUser` starts as JS `null` and is reassigned only by the
constructor's hydration and by `setCurrentUser`. -/
structure AuthState where
  currentUser : JSValue
  store : StrMap

/-- The events `Auth` triggers on its `Events` mixin. -/
inductive AuthEvent where
  | login (data : JSValue)
  | logout (prev : JSValue)

/-- `Auth` constructor (`auth.js` lines 17-35), shallowly embedded over the
host clock and the host parsers: `now` is `new Date().getTime()`;
`dateParse s` is `new Date(s).getTime()` with `none` for an invalid date
(`NaN`, which fails every `<` comparison); `jsonParse` is `JSON.parse`
(total here because hydration only ever parses strings previously produced by
`JSON.stringify`).  A missing expiration entry reads as `null`, and
`new Date(null)` is the epoch (`getTime() = 0`).  The current user hydrates
only when the persisted document is truthy (a non-empty string) and
`now < tokenExpiration.getTime()`; in every case the store is untouched. -/
def mkAuth (dateParse : String → Option Int) (jsonParse : String → JSValue)
    (app_id : String) (now : Int) (store : StrMap) : AuthState :=
  let tokenExpiration : Option Int :=
    match store.getItem (expirationKey app_id) with
    | none => some 0
    | some s => dateParse s
  match store.getItem (dataKey app_id) with
  | some s =>
    if s != "" && (match tokenExpiration with | some t => decide (now < t) | none => false) then
      ⟨jsonParse s, store⟩
    else ⟨.null, store⟩
  | none => ⟨.null, store⟩

/-- `Auth#setCurrentUser(data)` (`auth.js` lines 42-59).  Falsy `data`: trigger
`logout` with the previous user, assign `currentUser = data`, and remove the
persisted token and user-document entries.  Truthy `data`: persist the
serialized document (`localStorage.setItem` coerces `JSON.stringify`'s result,
which for truthy data is always a string), assign it in memory and trigger
`login`. -/
def setCurrentUser (app_id : String) (st : AuthState) (data : JSValue) :
    AuthState × List AuthEvent :=
  if truthy data = false then
    ⟨⟨data, (st.store.removeItem (tokenKey app_id)).removeItem (dataKey app_id)⟩,
     [.logout st.currentUser]⟩
  else
    ⟨⟨data, st.store.setItem (dataKey app_id) ((stringifyVal data).getD "undefined")⟩,
     [.login data]⟩

/-- `Auth#logout` (`auth.js` lines 198-200). -/
def logout (app_id : String) (st : AuthState) : AuthState × List AuthEvent :=
  setCurrentUser app_id st .null

/-- `Auth#isLogged` (`auth.js` lines 206-208): the strict comparison
`this.currentUser !== null`. -/
def isLogged (st : AuthState) : Bool :=
  match st.currentUser with
  | .null => false
  | _ => true

/-- `Auth#getToken` (`auth.js` lines 214-216). -/
def getToken (app_id : String) (store : StrMap) : Option String :=
  store.getItem (tokenKey app_id)

/-- `Auth#_registerToken(data)` (`auth.js` lines 218-228): when the response
carries a truthy `token` member, persist `data.token.token` and
`data.token.expire_at` (coerced to strings by `setItem`), delete the `token`
member and store the remainder via `setCurrentUser`; otherwise nothing
happens. -/
def registerToken (app_id : String) (st : AuthState) (data : JSValue) :
    AuthState × List AuthEvent :=
  let tok := getField data "token"
  if truthy tok then
    let store1 := st.store.setItem (tokenKey app_id) (jsToString (getField tok "token"))
    let store2 := store1.setItem (expirationKey app_id) (jsToString (getField tok "expire_at"))
    setCurrentUser app_id ⟨st.currentUser, store2⟩ (deleteField data "token")
  else (st, [])

/-- A call issued through `Client#post` from `Auth`: the endpoint segments,
the verb and the data handed over.  An `Except`-valued `Auth` operation that
returns an error throws synchronously and therefore issues none of these. -/
structure RemoteCall where
  segments : String
  method : String
  data : JSValue

/-- `Auth#resetPassword(data)` (`auth.js` lines 188-192): synchronous
validation that `data.token` and `data.password` are strings, then a single
`client.post('auth/email/resetPassword', data)`. -/
def resetPassword (data : JSValue) : Except JSError (List RemoteCall) :=
  if !(isString (getField data "token")) then .error .forgotPasswordTokenRequired
  else if !(isString (getField data "password")) then .error .newPasswordRequired
  else .ok [⟨"auth/email/resetPassword", "POST", data⟩]

/-- Modelled from the spec: `Collection#update` lives in `collection.js`,
which is not among the provided sources; per the spec, `auth.update` "submits
a partial update against the authenticated user's record (identified by its
`_id`)" through "the generic collection-update endpoint for the authenticated
record's id".  The call is modelled at its boundary as this record (collection
name, record id, update data); the wire details live in the missing file. -/
structure CollectionUpdateCall where
  collection : String
  id : JSValue
  data : JSValue

/-- `Auth#update(data)` (`auth.js` lines 126-138), up to the network boundary:
with a falsy current user it throws `"not logged in."` synchronously (issuing
no call); otherwise it issues the collection update of `this.currentUser._id`
on collection `auth` with `data`. -/
def authUpdate (st : AuthState) (data : JSValue) : Except JSError CollectionUpdateCall :=
  if !(truthy st.currentUser) then .error .notLoggedIn
  else .ok ⟨"auth", getField st.currentUser "_id", data⟩

/-- The continuation `Auth#update` installs on the returned promise
(`auth.js` line 135): on success the server's document is re-applied through
`setCurrentUser`. -/
def authUpdateOnSuccess (app_id : String) (st : AuthState) (response : JSValue) :
    AuthState × List AuthEvent :=
  setCurrentUser app_id st response

/-! ## Concrete fixtures used by evaluation theorems and witnesses -/

/-- A browser environment with the canvas-to-blob dependency loaded. -/
def env1 : Env := ⟨true⟩

/-- A client with override disabled and no session token. -/
def client1 : Client := ⟨"http://h/", "1", "k", false, none⟩

/-- A client with `options.method_override` enabled. -/
def clientOv : Client := ⟨"http://h/", "1", "k", true, none⟩

/-- A login response body: user fields plus a `token` sub-object. -/
def fsC2 : List (String × JSValue) :=
  [("name", .str "n"), ("token", .obj [("token", .str "T"), ("expire_at", .str "E")])]

/-- A host date parser mapping every stored expiration string to time 10. -/
def dpC3 : String → Option Int := fun _ => some 10

/-- A host JSON parser mapping every stored document to the value 7. -/
def jpC3 : String → JSValue := fun _ => JSValue.num 7

/-- A store holding a persisted user document and an expiration entry. -/
def storeC3 : StrMap := [(dataKey "a", "u"), (expirationKey "a", "10")]

/-- A host date parser mapping every stored expiration string to time 100. -/
def dpC5 : String → Option Int := fun _ => some 100

/-- A host JSON parser mapping every stored document to the value 1. -/
def jpC5 : String → JSValue := fun _ => JSValue.num 1

/-- A store holding a user document, a bearer token and an expiration entry. -/
def storeC5 : StrMap := [(dataKey "a", "u"), (tokenKey "a", "T"), (expirationKey "a", "100")]

/-- The envelope `request` produces for a DELETE with override enabled and no data. -/
def rC6 : RequestEnvelope :=
  ⟨"POST", [("X-App-Id", "1"), ("X-App-Key", "k"), ("Content-Type", "text/json"),
            ("X-HTTP-Method-Override", "DELETE")], "http://h/x", none⟩

/-- A reset-password argument with string token and password fields. -/
def dC7 : JSValue := .obj [("token", .str "t"), ("password", .str "x")]

/-- An authenticated state whose current user carries an `_id`. -/
def stC8 : AuthState := ⟨.obj [("_id", .num 5)], []⟩

/-! ## Shared helper lemmas -/

theorem jsRound_whole (s : Int) : jsRound (1000 * s) = s := by
  unfold jsRound
  rw [Int.fdiv_eq_ediv _ (by norm_num)]
  omega

theorem getItem_setItem_self (m : StrMap) (k v : String) :
    (m.setItem k v).getItem k = some v := by
  induction m with
  | nil => simp [StrMap.setItem, StrMap.getItem]
  | cons p rest ih =>
    by_cases hp : p.1 = k
    · simp [StrMap.setItem, StrMap.getItem, beq_iff_eq, hp]
    · simp [StrMap.setItem, StrMap.getItem, beq_iff_eq, hp, ih]

theorem getItem_setItem_ne (m : StrMap) (k k' v : String) (h : k ≠ k') :
    (m.setItem k v).getItem k' = m.getItem k' := by
  induction m with
  | nil => simp [StrMap.setItem, StrMap.getItem, beq_iff_eq, h]
  | cons p rest ih =>
    by_cases hp : p.1 = k
    · simp [StrMap.setItem, StrMap.getItem, beq_iff_eq, hp, h]
    · simp [StrMap.setItem, StrMap.getItem, beq_iff_eq, hp, ih]

theorem getItem_removeItem_self (m : StrMap) (k : String) :
    (m.removeItem k).getItem k = none := by
  induction m with
  | nil => simp [StrMap.removeItem, StrMap.getItem]
  | cons p rest ih =>
    by_cases hp : p.1 = k
    · simp [StrMap.removeItem, StrMap.getItem, beq_iff_eq, hp, ih]
    · simp [StrMap.removeItem, StrMap.getItem, beq_iff_eq, hp, ih]

theorem tokenKey_ne_expirationKey (app : String) : tokenKey app ≠ expirationKey app := by
  intro h
  have hlen := congrArg String.length h
  have h1 : ("-" : String).length = 1 := rfl
  have h2 : AUTH_TOKEN_KEY.length = 15 := rfl
  have h3 : AUTH_TOKEN_EXPIRATION.length = 26 := rfl
  simp [tokenKey, expirationKey, String.length_append, h1, h2, h3] at hlen

theorem dataKey_ne_tokenKey (app : String) : dataKey app ≠ tokenKey app := by
  intro h
  have hlen := congrArg String.length h
  have h1 : ("-" : String).length = 1 := rfl
  have h2 : AUTH_DATA_KEY.length = 14 := rfl
  have h3 : AUTH_TOKEN_KEY.length = 15 := rfl
  simp [dataKey, tokenKey, String.length_append, h1, h2, h3] at hlen

theorem dataKey_ne_expirationKey (app : String) : dataKey app ≠ expirationKey app := by
  intro h
  have hlen := congrArg String.length h
  have h1 : ("-" : String).length = 1 := rfl
  have h2 : AUTH_DATA_KEY.length = 14 := rfl
  have h3 : AUTH_TOKEN_EXPIRATION.length = 26 := rfl
  simp [dataKey, expirationKey, String.length_append, h1, h2, h3] at hlen

theorem getItem_removeItem_ne (m : StrMap) (k k' : String) (h : k ≠ k') :
    (m.removeItem k).getItem k' = m.getItem k' := by
  induction m with
  | nil => simp [StrMap.removeItem, StrMap.getItem]
  | cons p rest ih =>
    by_cases hp : p.1 = k
    · have : ¬ p.1 = k' := fun hq => h (hp ▸ hq ▸ rfl)
      simp [StrMap.removeItem, StrMap.getItem, beq_iff_eq, hp, this, h, ih]
    · simp [StrMap.removeItem, StrMap.getItem, beq_iff_eq, hp, ih]

theorem currentUser_setCurrentUser (app : String) (st : AuthState) (d : JSValue) :
    (setCurrentUser app st d).1.currentUser = d := by
  unfold setCurrentUser
  by_cases h : truthy d = false <;> simp [h]

theorem isLogged_iff (st : AuthState) : isLogged st = true ↔ st.currentUser ≠ JSValue.null := by
  obtain ⟨cu, m⟩ := st
  cases cu <;> simp [isLogged]

theorem request_ok_shape (env : Env) (c : Client) (segs m0 : String) (data : JSValue)
    (r : RequestEnvelope) (hok : request env c segs m0 data = .ok r) :
    r.method = (if (m0 != "GET" && m0 != "POST" && c.method_override) = true then "POST" else m0) ∧
    r.headers = (if (m0 != "GET" && m0 != "POST" && c.method_override) = true
      then StrMap.setItem (StrMap.setItem (getHeaders c) "Content-Type" "text/json")
             "X-HTTP-Method-Override" m0
      else StrMap.setItem (getHeaders c) "Content-Type" "text/json") := by
  unfold request at hok
  by_cases hov : (m0 != "GET" && m0 != "POST" && c.method_override) = true
  · simp only [hov, if_true] at hok ⊢
    split at hok
    · split at hok
      · exact absurd hok (by simp)
      · cases hok with
        | refl => exact ⟨rfl, rfl⟩
    · split at hok
      · exact absurd hok (by simp)
      · cases hok with
        | refl => exact ⟨rfl, rfl⟩
  · have hov' : (m0 != "GET" && m0 != "POST" && c.method_override) = false := by
      revert hov
      cases (m0 != "GET" && m0 != "POST" && c.method_override) <;> simp
    simp only [hov', Bool.false_eq_true, if_false] at hok ⊢
    split at hok
    · split at hok
      · exact absurd hok (by simp)
      · cases hok with
        | refl => exact ⟨rfl, rfl⟩
    · split at hok
      · exact absurd hok (by simp)
      · cases hok with
        | refl => exact ⟨rfl, rfl⟩

theorem getItem_baseHeaders_override (c : Client) :
    (StrMap.setItem (getHeaders c) "Content-Type" "text/json").getItem
      "X-HTTP-Method-Override" = none := by
  rw [getItem_setItem_ne _ _ _ _ (by decide)]
  unfold getHeaders
  cases c.authToken with
  | none => rfl
  | some t =>
    by_cases ht : (t != "") = true
    · simp only [ht, if_true]
      simp [StrMap.getItem]
    · simp only [Bool.not_eq_true] at ht
      simp only [ht, Bool.false_eq_true, if_false]
      simp [StrMap.getItem]

/-! ## Claim theorems -/

/-- C1: evaluation of the pipeline at a failing input.  The claim says a
non-GET request with a file-bearing field gets a multipart body and no JSON
content-type header; the code does produce the multipart body, but `request`
sets `Content-Type: text/json` unconditionally (`client.js` line 191), before
the payload is even computed, so the header is present on the multipart
request.  First conjunct: a POST with a selected-file input field yields the
form-data body together with the `text/json` content-type header.  Second
conjunct: the same request with only scalar fields yields a JSON string body,
never multipart. -/
theorem c1_json_content_type_applied_to_multipart :
    request env1 client1 "files" "POST" (.obj [("attachment", .input ["a.png"] "")]) =
      .ok ⟨"POST", [("X-App-Id", "1"), ("X-App-Key", "k"), ("Content-Type", "text/json")],
           "http://h/files", some (.form [.fileField "attachment" "a.png"])⟩ ∧
    request env1 client1 "files" "POST" (.obj [("a", .num 1), ("b", .str "x")]) =
      .ok ⟨"POST", [("X-App-Id", "1"), ("X-App-Key", "k"), ("Content-Type", "text/json")],
           "http://h/files", some (.str "\x7b\"a\":1,\"b\":\"x\"\x7d")⟩ :=
  ⟨rfl, rfl⟩

/-- C2: token round-trip.  For a login/register response body
`fields ++ token: (token: T, expire_at: E)`, after `_registerToken`:
`getToken()` returns `T`, the persisted expiration entry equals `E`, the
in-memory current user is the response body with the `token` member removed,
and the persisted user document is its serialization; a response with no
`token` field changes no state and triggers no event. -/
theorem c2_token_round_trip (app T E : String) (st : AuthState)
    (fs : List (String × JSValue))
    (htok : lookupField fs "token" = some (.obj [("token", .str T), ("expire_at", .str E)])) :
    getToken app (registerToken app st (.obj fs)).1.store = some T ∧
    ((registerToken app st (.obj fs)).1.store).getItem (expirationKey app) = some E ∧
    (registerToken app st (.obj fs)).1.currentUser =
      .obj (fs.filter (fun p => p.1 != "token")) ∧
    ((registerToken app st (.obj fs)).1.store).getItem (dataKey app) =
      stringifyVal (.obj (fs.filter (fun p => p.1 != "token"))) ∧
    (∀ fs2 : List (String × JSValue), lookupField fs2 "token" = none →
      registerToken app st (.obj fs2) = (st, [])) := by
  have hget : getField (.obj fs) "token" = .obj [("token", .str T), ("expire_at", .str E)] := by
    simp [getField, htok]
  have hstate : registerToken app st (.obj fs) =
      ⟨⟨.obj (fs.filter (fun p => p.1 != "token")),
        (((st.store.setItem (tokenKey app) T).setItem (expirationKey app) E).setItem (dataKey app)
          ((stringifyVal (.obj (fs.filter (fun p => p.1 != "token")))).getD "undefined"))⟩,
       [.login (.obj (fs.filter (fun p => p.1 != "token")))]⟩ := by
    simp [registerToken, hget, htok, truthy, setCurrentUser, deleteField, getField, lookupField,
      jsToString]
  refine ⟨?_, ?_, ?_, ?_, ?_⟩
  · rw [hstate]
    unfold getToken
    rw [getItem_setItem_ne _ _ _ _ (dataKey_ne_tokenKey app),
        getItem_setItem_ne _ _ _ _ (fun h => tokenKey_ne_expirationKey app h.symm),
        getItem_setItem_self]
  · rw [hstate]
    simp only
    rw [getItem_setItem_ne _ _ _ _ (dataKey_ne_expirationKey app), getItem_setItem_self]
  · rw [hstate]
  · rw [hstate]
    simp only
    rw [getItem_setItem_self]
    simp [stringifyVal]
  · intro fs2 h2
    simp [registerToken, getField, h2, truthy]

/-- C2 witness: for a concrete login response carrying token `T`, the
registered token is read back. -/
theorem c2_token_round_trip_witness :
    getToken "a" (registerToken "a" ⟨JSValue.null, []⟩ (.obj fsC2)).1.store = some "T" :=
  (c2_token_round_trip "a" "T" "E" ⟨JSValue.null, []⟩ fsC2 rfl).1

/-- C3: expiration boundary.  With a persisted non-empty user document and a
persisted expiration string parsing to time `E`, constructing `Auth` at
wall-clock `now` hydrates `currentUser` with the parsed document exactly when
`now < E`, and leaves it `null` when `now >= E`. -/
theorem c3_expiration_boundary (dp : String → Option Int) (jp : String → JSValue)
    (app : String) (now : Int) (store : StrMap) (s estr : String) (E : Int)
    (h1 : store.getItem (dataKey app) = some s) (h2 : s ≠ "")
    (h3 : store.getItem (expirationKey app) = some estr) (h4 : dp estr = some E) :
    (mkAuth dp jp app now store).currentUser = if now < E then jp s else .null := by
  by_cases h : now < E <;>
    simp [mkAuth, h1, h3, h4, h, bne, beq_iff_eq, h2]

/-- C3 witness: at `now = 3` against expiration 10 the persisted document
hydrates. -/
theorem c3_expiration_boundary_witness :
    (mkAuth dpC3 jpC3 "a" 3 storeC3).currentUser = JSValue.num 7 := by
  have h := c3_expiration_boundary dpC3 jpC3 "a" 3 storeC3 "u" "10" 10 rfl (by decide) rfl rfl
  exact h.trans rfl

/-- C4 counterexample: the claim says `isLogged()` is true iff the value
passed to `setCurrentUser` is truthy, but `setCurrentUser(false)` stores the
falsy value `false` as `currentUser` and `isLogged` only compares against
`null` strictly, so `isLogged()` returns true. -/
theorem c4_counterexample :
    truthy (.bool false) = false ∧
    isLogged (setCurrentUser "app" ⟨.null, []⟩ (.bool false)).1 = true :=
  ⟨rfl, rfl⟩

/-- C4 amended: after `setCurrentUser(d)`, `isLogged()` returns true iff `d`
is not (strictly) `null`; in particular `setCurrentUser(null)` always makes
`isLogged()` return false, but other falsy values (`undefined`, `false`, `0`,
the empty string) leave it true. -/
theorem c4_is_logged_amended (app : String) (st : AuthState) (d : JSValue) :
    (isLogged (setCurrentUser app st d).1 = true ↔ d ≠ JSValue.null) ∧
    isLogged (setCurrentUser app st JSValue.null).1 = false := by
  constructor
  · rw [isLogged_iff, currentUser_setCurrentUser]
  · have h := currentUser_setCurrentUser app st JSValue.null
    simp [isLogged, h]

/-- C5 counterexample: constructing `Auth` over a store holding a user
document, a token and an already-expired expiration (`now = 200 >= 100`)
leaves `currentUser` null but clears nothing: the token and document entries
are still readable afterwards, whereas `logout` removes the token entry. -/
theorem c5_counterexample :
    (mkAuth dpC5 jpC5 "a" 200 storeC5).currentUser = JSValue.null ∧
    ((mkAuth dpC5 jpC5 "a" 200 storeC5).store).getItem (tokenKey "a") = some "T" ∧
    ((mkAuth dpC5 jpC5 "a" 200 storeC5).store).getItem (dataKey "a") = some "u" ∧
    ((logout "a" (mkAuth dpC5 jpC5 "a" 200 storeC5)).1.store).getItem (tokenKey "a") = none :=
  ⟨rfl, rfl, rfl, rfl⟩

/-- C5 amended: construction never writes to the persisted store (an expired
session is only skipped during hydration, not destroyed); the persisted token
and user-document entries are removed only by `setCurrentUser` with a falsy
value, i.e. on logout. -/
theorem c5_construction_preserves_store (dp : String → Option Int) (jp : String → JSValue)
    (app : String) (now : Int) (store : StrMap) :
    (mkAuth dp jp app now store).store = store ∧
    ∀ st : AuthState,
      ((setCurrentUser app st JSValue.null).1.store).getItem (tokenKey app) = none ∧
      ((setCurrentUser app st JSValue.null).1.store).getItem (dataKey app) = none := by
  constructor
  · unfold mkAuth
    cases h : store.getItem (dataKey app) with
    | none => simp [h]
    | some s =>
      simp only [h]
      split <;> rfl
  · intro st
    have hfalse : truthy JSValue.null = false := rfl
    constructor
    · simp only [setCurrentUser, hfalse]
      simp only [ite_true, if_true, eq_self_iff_true]
      rw [getItem_removeItem_ne _ _ _ (dataKey_ne_tokenKey app)]
      exact getItem_removeItem_self _ _
    · simp only [setCurrentUser, hfalse]
      simp only [ite_true, if_true, eq_self_iff_true]
      exact getItem_removeItem_self _ _

/-- C6: method-override policy.  For any dispatched request: when the verb is
neither GET nor POST, with override enabled the outgoing method is POST and
the `X-HTTP-Method-Override` header carries the original verb, and with
override disabled the verb is unchanged and no override header is present;
GET and POST are never rewritten and never carry the override header. -/
theorem c6_method_override_policy (env : Env) (c : Client) (segs m : String) (data : JSValue)
    (r : RequestEnvelope) (hok : request env c segs m data = .ok r) :
    (m ≠ "GET" → m ≠ "POST" →
      (c.method_override = true →
        r.method = "POST" ∧ r.headers.getItem "X-HTTP-Method-Override" = some m) ∧
      (c.method_override = false →
        r.method = m ∧ r.headers.getItem "X-HTTP-Method-Override" = none)) ∧
    (m = "GET" ∨ m = "POST" →
      r.method = m ∧ r.headers.getItem "X-HTTP-Method-Override" = none) := by
  obtain ⟨hm, hh⟩ := request_ok_shape env c segs m data r hok
  constructor
  · intro hg hp
    have hbg : (m != "GET") = true := by simp [bne, beq_iff_eq, hg]
    have hbp : (m != "POST") = true := by simp [bne, beq_iff_eq, hp]
    constructor
    · intro hov
      have hcond : (m != "GET" && m != "POST" && c.method_override) = true := by
        simp [hbg, hbp, hov]
      rw [hcond] at hm hh
      simp only [if_pos rfl] at hm hh
      refine ⟨hm, ?_⟩
      rw [hh]
      exact getItem_setItem_self _ _ _
    · intro hov
      have hcond : (m != "GET" && m != "POST" && c.method_override) = false := by
        simp [hov]
      rw [hcond] at hm hh
      simp only [Bool.false_eq_true, if_false] at hm hh
      refine ⟨hm, ?_⟩
      rw [hh]
      exact getItem_baseHeaders_override c
  · intro hgp
    have hcond : (m != "GET" && m != "POST" && c.method_override) = false := by
      cases hgp with
      | inl h => simp [h]
      | inr h => simp [h]
    rw [hcond] at hm hh
    simp only [Bool.false_eq_true, if_false] at hm hh
    refine ⟨hm, ?_⟩
    rw [hh]
    exact getItem_baseHeaders_override c

/-- C6 witness: a DELETE with override enabled is dispatched as POST carrying
`X-HTTP-Method-Override: DELETE`. -/
theorem c6_method_override_policy_witness :
    rC6.method = "POST" ∧ rC6.headers.getItem "X-HTTP-Method-Override" = some "DELETE" :=
  ((c6_method_override_policy env1 clientOv "x" "DELETE" JSValue.undefined rC6 rfl).1
    (by decide) (by decide)).1 rfl

/-- C7: `resetPassword(data)` throws synchronously (issuing no network call,
since only the `.ok` branch carries calls) whenever `data.token` or
`data.password` is missing or not a string; when both are strings it issues
exactly one POST to the reset endpoint. -/
theorem c7_reset_password (d : JSValue) :
    (isString (getField d "token") = false →
      resetPassword d = .error .forgotPasswordTokenRequired) ∧
    (isString (getField d "token") = true → isString (getField d "password") = false →
      resetPassword d = .error .newPasswordRequired) ∧
    (isString (getField d "token") = true → isString (getField d "password") = true →
      resetPassword d = .ok [⟨"auth/email/resetPassword", "POST", d⟩]) := by
  refine ⟨?_, ?_, ?_⟩
  · intro h; simp [resetPassword, h]
  · intro h1 h2; simp [resetPassword, h1, h2]
  · intro h1 h2; simp [resetPassword, h1, h2]

/-- C7 witness: with both string fields present, exactly one request to the
reset endpoint is issued. -/
theorem c7_reset_password_witness :
    resetPassword dC7 = .ok [⟨"auth/email/resetPassword", "POST", dC7⟩] :=
  (c7_reset_password dC7).2.2 rfl rfl

/-- C8: `update(data)` throws a synchronous not-authenticated error (issuing
no collection call) whenever the current user is unset (falsy); with a
current user set, it issues the collection update against that user's `_id`,
and the success continuation re-applies `setCurrentUser` with the returned
document. -/
theorem c8_update_requires_login (st : AuthState) (d : JSValue) :
    (truthy st.currentUser = false → authUpdate st d = .error .notLoggedIn) ∧
    (truthy st.currentUser = true →
      authUpdate st d = .ok ⟨"auth", getField st.currentUser "_id", d⟩) ∧
    (∀ (app : String) (st2 : AuthState) (resp : JSValue),
      authUpdateOnSuccess app st2 resp = setCurrentUser app st2 resp) := by
  refine ⟨fun h => by simp [authUpdate, h], fun h => by simp [authUpdate, h], fun _ _ _ => rfl⟩

/-- C8 witness: with a logged-in user carrying `_id`, the update call targets
that id. -/
theorem c8_update_requires_login_witness :
    authUpdate stC8 (.num 0) = .ok ⟨"auth", getField stC8.currentUser "_id", .num 0⟩ :=
  (c8_update_requires_login stC8 (.num 0)).2.1 rfl

/-- C9: date encoding.  In the JSON fallback serialization, a field holding a
date whose time is a whole number of seconds (`1000 * s` milliseconds)
serializes exactly as the same field holding the integer `s` — an unquoted
JSON integer equal to the Unix-epoch seconds, not a string.  (The replacer
computes `Math.round(getTime() / 1000)`, so a date falling strictly inside a
second rounds to the nearest second.) -/
theorem c9_date_fields_serialize_as_epoch_seconds (fs gs : List (String × JSValue))
    (k : String) (s : Int) :
    stringifyVal (.obj (fs ++ (k, .date (1000 * s)) :: gs)) =
    stringifyVal (.obj (fs ++ (k, .num s) :: gs)) := by
  have h : fieldEntries (fs ++ (k, .date (1000 * s)) :: gs) =
      fieldEntries (fs ++ (k, .num s) :: gs) := by
    induction fs with
    | nil => simp [fieldEntries, stringifyVal, jsRound_whole]
    | cons p rest ih =>
      obtain ⟨k2, v2⟩ := p
      cases hv : stringifyVal v2 <;> simp [fieldEntries, hv, ih]
  simp [stringifyVal, h]

/-- C10: for every GET whose payload normalizes to `null` (data absent, falsy,
or serializing to the empty-object literal), the dispatched URL is the
endpoint plus segments followed by the literal characters `?null`, because
`url + "?" + payload` coerces the `null` payload to the string `"null"`. -/
theorem c10_get_null_payload_url (env : Env) (c : Client) (segs : String) (data : JSValue)
    (hnull : getPayload env "GET" data = .ok none) :
    request env c segs "GET" data =
      .ok ⟨"GET", StrMap.setItem (getHeaders c) "Content-Type" "text/json",
            c.endpoint ++ segs ++ "?null", none⟩ := by
  unfold request
  simp [hnull, payloadToJSString, String.append_assoc]

/-- C10 witness: a GET with data `\x7b\x7d` (serializing to the empty-object
literal) is dispatched to `http://h/x?null`. -/
theorem c10_get_null_payload_url_witness :
    request env1 client1 "x" "GET" (.obj []) =
      .ok ⟨"GET", StrMap.setItem (getHeaders client1) "Content-Type" "text/json",
            client1.endpoint ++ "x" ++ "?null", none⟩ :=
  c10_get_null_payload_url env1 client1 "x" (.obj []) rfl

end Hook
